import Mathlib

/-!
Verification of the time-window gated scheduler in `mag7_agent.py`.

The embedding models:
- `PyDateTime`: a local-calendar instant as (day ordinal, microsecond of day,
  timezone-awareness flag). Day ordinals are counted from a Monday epoch, so
  `day % 7` reproduces Python's `datetime.weekday()` (0 = Monday .. 6 = Sunday).
- `RenderOptimizer.is_market_hours`, `is_extended_hours`,
  `get_next_extended_open`, `should_run_now`: the classifier methods,
  translated clause by clause.
- `worker_iteration` / `worker_loop`: one iteration / the driving loop of
  `trading_agent_worker`, with the clock reading and the task-callback outcome
  passed in as explicit inputs, and each `time.sleep` call recorded.
-/

/-- Microseconds in one day. -/
def usPerDay : Nat := 86400000000

/-- Microseconds in one hour (used by the `.hour` accessor). -/
def usPerHour : Nat := 3600000000

/-- A Python `datetime` in the configured (US/Eastern) local calendar:
`day` is the day ordinal counted from a Monday epoch, `tod` the microsecond
of the local day, and `aware` records whether the value carries `tzinfo`
(the classifier code never inspects it, mirroring the source). -/
structure PyDateTime where
  day : Nat
  tod : Nat
  aware : Bool
deriving DecidableEq, Repr

/-- Python `datetime.weekday()`: 0 = Monday .. 6 = Sunday. -/
def PyDateTime.weekday (d : PyDateTime) : Nat := d.day % 7

/-- Python `datetime.hour`. -/
def PyDateTime.hour (d : PyDateTime) : Nat := d.tod / usPerHour

/-- Microsecond of day for a given hour/minute/second/microsecond. -/
def hmsToTod (h m s us : Nat) : Nat := ((h * 60 + m) * 60 + s) * 1000000 + us

/-- Python `dt.replace(hour=h, minute=m, second=s, microsecond=us)`:
same calendar day and tzinfo, new time of day. -/
def PyDateTime.replaceTime (d : PyDateTime) (h m s us : Nat) : PyDateTime :=
  { d with tod := hmsToTod h m s us }

/-- Python comparison `a <= b` on same-zone datetimes: lexicographic on
(day, time of day). -/
def dtLe (a b : PyDateTime) : Bool :=
  decide (a.day < b.day) || (decide (a.day = b.day) && decide (a.tod ≤ b.tod))

/-- Python comparison `a < b` on same-zone datetimes. -/
def dtLt (a b : PyDateTime) : Bool :=
  decide (a.day < b.day) || (decide (a.day = b.day) && decide (a.tod < b.tod))

/-- Python `dt + timedelta(days=k)`. -/
def PyDateTime.addDays (d : PyDateTime) (k : Nat) : PyDateTime :=
  { d with day := d.day + k }

/-- Python `dt + timedelta(microseconds=us)` (handles midnight carry). -/
def PyDateTime.addMicros (d : PyDateTime) (us : Nat) : PyDateTime :=
  { d with day := d.day + (d.tod + us) / usPerDay, tod := (d.tod + us) % usPerDay }

namespace RenderOptimizer

/-- `is_market_hours(dt)`: 9:30 AM - 4:00 PM ET, Monday-Friday; weekends are
false, otherwise `market_open <= dt <= market_close` with both bounds built
by `dt.replace`. -/
def is_market_hours (dt : PyDateTime) : Bool :=
  if 5 ≤ dt.weekday then
    false
  else
    let market_open := dt.replaceTime 9 30 0 0
    let market_close := dt.replaceTime 16 0 0 0
    dtLe market_open dt && dtLe dt market_close

/-- `is_extended_hours(dt)`: 7:00 AM - 8:00 PM ET, Monday-Friday; weekends are
false, otherwise `extended_open <= dt <= extended_close`. -/
def is_extended_hours (dt : PyDateTime) : Bool :=
  if 5 ≤ dt.weekday then
    false
  else
    let extended_open := dt.replaceTime 7 0 0 0
    let extended_close := dt.replaceTime 20 0 0 0
    dtLe extended_open dt && dtLe dt extended_close

/-- `get_next_extended_open(dt)`: Friday after 8 PM adds 3 days; weekend adds
`7 - weekday` days; other weekdays add 1 day after 8 PM and 0 otherwise; the
result has its time of day replaced by 07:00:00.000000. -/
def get_next_extended_open (dt : PyDateTime) : PyDateTime :=
  let days_to_add :=
    if dt.weekday = 4 ∧ 20 ≤ dt.hour then 3
    else if 5 ≤ dt.weekday then 7 - dt.weekday
    else if 20 ≤ dt.hour then 1
    else 0
  (dt.addDays days_to_add).replaceTime 7 0 0 0

/-- The decision record returned by `should_run_now`: `check_interval` and
`sleep_minutes` are `Option`s because the corresponding dictionary key is
present only in some branches of the source. -/
structure Decision where
  should_run : Bool
  check_interval : Option Nat
  sleep_minutes : Option Nat
  message : String
  next_check : PyDateTime
deriving DecidableEq, Repr

/-- `should_run_now()` with the clock reading `now = datetime.now(est)`
passed explicitly: market hours give a 10-minute check interval, extended
hours a 60-minute one, and otherwise the decision is a 240-minute deep sleep
with `next_check = get_next_extended_open(now)`. -/
def should_run_now (now : PyDateTime) : Decision :=
  if is_market_hours now then
    { should_run := true
      check_interval := some 10
      sleep_minutes := none
      message := "Active market monitoring 9:30AM-4PM ET"
      next_check := now.addMicros (10 * 60 * 1000000) }
  else if is_extended_hours now then
    { should_run := true
      check_interval := some 60
      sleep_minutes := none
      message := "Extended hours monitoring 7AM-8PM ET"
      next_check := now.addMicros (60 * 60 * 1000000) }
  else
    { should_run := false
      check_interval := none
      sleep_minutes := some 240
      message := "Deep sleep mode"
      next_check := get_next_extended_open now }

end RenderOptimizer

/-- An alert record produced by the task callback (`analyze_mag7_stocks`);
its payload is irrelevant to the scheduling claims, so it is kept abstract
as its symbol string. -/
abbrev Signal := String

/-- The mutable fields of the `RenderOptimizer` instance (`self.is_running`,
`self.last_update`, `self.status_message`, `self.last_alerts`,
`self.alert_count`); `self.est` is a constant and is folded into the
embedding of local time. -/
structure OptimizerState where
  is_running : Bool
  last_update : Option PyDateTime
  status_message : String
  last_alerts : List Signal
  alert_count : Nat
deriving DecidableEq, Repr

namespace RenderOptimizer

/-- `should_run_now` as an explicit state transformer: the method body reads
the clock and `self.est` but performs no attribute assignment, so the state
component passes through unchanged. -/
def should_run_now_st (s : OptimizerState) (now : PyDateTime) :
    RenderOptimizer.Decision × OptimizerState :=
  (should_run_now now, s)

/-- `log_status()`: evaluates `should_run_now`, stores the timestamp and the
decision message into the instance, and returns the decision (the timestamp
string is kept as the instant itself; its rendering has no behavioral
contract). -/
def log_status (s : OptimizerState) (now : PyDateTime) :
    RenderOptimizer.Decision × OptimizerState :=
  let status := should_run_now now
  (status, { s with last_update := some now, status_message := status.message })

end RenderOptimizer

/-- Observable outcome of one iteration of `trading_agent_worker`:
the sequence of `time.sleep` calls it made (in seconds, one entry per call),
whether the `except` handler ran (an error was caught and logged), and the
optimizer state after the iteration. -/
structure IterResult where
  sleeps : List Nat
  errorLogged : Bool
  state : OptimizerState
deriving DecidableEq, Repr

/-- One iteration of the `while optimizer.is_running` body of
`trading_agent_worker`. Explicit inputs stand for the environment: `now` is
the clock reading, `task` the outcome of `analyze_mag7_stocks()` (`.error`
when the callback raises), `emailOk` whether `send_email_alert` reached its
stat-updating tail. A raised task error, like any exception in the `try`
block (including a hypothetical `KeyError` on a missing dictionary key), is
caught by the `except` clause: it logs and sleeps 300 seconds. -/
def worker_iteration (s : OptimizerState) (now : PyDateTime)
    (task : Except String (List Signal)) (emailOk : Bool) : IterResult :=
  let (status, s1) := RenderOptimizer.log_status s now
  if status.should_run then
    match task with
    | .error _ => { sleeps := [300], errorLogged := true, state := s1 }
    | .ok strong_buys =>
      let s2 :=
        if strong_buys ≠ [] ∧ emailOk = true then
          { s1 with last_alerts := strong_buys
                    alert_count := s1.alert_count + strong_buys.length }
        else s1
      match status.check_interval with
      | some ci => { sleeps := [ci * 60], errorLogged := false, state := s2 }
      | none => { sleeps := [300], errorLogged := true, state := s2 }
  else
    match status.sleep_minutes with
    | some sm => { sleeps := [sm * 60], errorLogged := false, state := s1 }
    | none => { sleeps := [300], errorLogged := true, state := s1 }

/-- The `while optimizer.is_running` loop of `trading_agent_worker`, run over
a finite trace of environment inputs (clock reading, task outcome, email
outcome per iteration): the flag is tested at the top of each iteration and
the loop stops as soon as it is false. -/
def worker_loop (s : OptimizerState) :
    List (PyDateTime × Except String (List Signal) × Bool) → List IterResult
  | [] => []
  | (now, task, emailOk) :: rest =>
    if s.is_running then
      let r := worker_iteration s now task emailOk
      r :: worker_loop r.state rest
    else []

namespace RenderOptimizer

/-- The Active regime: the first branch of `should_run_now` is selected. -/
def activeRegime (dt : PyDateTime) : Bool := is_market_hours dt

/-- The Extended regime: the second branch of `should_run_now` is selected. -/
def extendedRegime (dt : PyDateTime) : Bool := !is_market_hours dt && is_extended_hours dt

/-- The Dormant regime: the final branch of `should_run_now` is selected. -/
def dormantRegime (dt : PyDateTime) : Bool := !is_market_hours dt && !is_extended_hours dt

end RenderOptimizer

/-- The next-wake computation exactly as the specification words it, for
comparison with `get_next_extended_open`: Friday with local time at or past
20:00:00 advances 3 calendar days; Saturday (weekday index 5) or Sunday
(weekday index 6) advances `7 - weekday_index` days; any other weekday
advances 1 day when local time is at or past 20:00:00 and 0 days otherwise;
the resulting date gets time of day 07:00:00.000000. -/
def spec_next_wake (dt : PyDateTime) : PyDateTime :=
  let days_to_add :=
    if dt.weekday = 4 ∧ hmsToTod 20 0 0 0 ≤ dt.tod then 3
    else if dt.weekday = 5 ∨ dt.weekday = 6 then 7 - dt.weekday
    else if hmsToTod 20 0 0 0 ≤ dt.tod then 1
    else 0
  { day := dt.day + days_to_add, tod := hmsToTod 7 0 0 0, aware := dt.aware }

/-- The Active window as the claim words it under the half-open reading of
the interval boundaries: left-closed, right-open on [09:30, 16:00), on
weekdays only (for comparison with the code, whose bounds are closed). -/
def specActiveHalfOpen (dt : PyDateTime) : Bool :=
  decide (dt.weekday < 5) && decide (hmsToTod 9 30 0 0 ≤ dt.tod)
    && decide (dt.tod < hmsToTod 16 0 0 0)

/-- The scheduling-relevant observables of a decision record: everything the
worker loop and the status surface read from it, except the tzinfo tag that
`next_check` inherits from the input instant. -/
def decisionObservables (d : RenderOptimizer.Decision) :
    Bool × Option Nat × Option Nat × Nat × Nat :=
  (d.should_run, d.check_interval, d.sleep_minutes, d.next_check.day, d.next_check.tod)

/-- A sample running optimizer state, used to instantiate witnesses. -/
def sampleRunning : OptimizerState :=
  { is_running := true, last_update := none, status_message := "Initializing"
    last_alerts := [], alert_count := 0 }

/-- A sample stopped optimizer state, used to instantiate witnesses. -/
def sampleStopped : OptimizerState :=
  { is_running := false, last_update := none, status_message := "Initializing"
    last_alerts := [], alert_count := 0 }

/-- Arithmetic characterization of `is_market_hours`. -/
theorem is_market_hours_iff (dt : PyDateTime) :
    RenderOptimizer.is_market_hours dt = true ↔
      dt.day % 7 < 5 ∧ hmsToTod 9 30 0 0 ≤ dt.tod ∧ dt.tod ≤ hmsToTod 16 0 0 0 := by
  simp only [RenderOptimizer.is_market_hours, PyDateTime.weekday, PyDateTime.replaceTime,
    dtLe, hmsToTod]
  split
  · simp
    omega
  · simp
    omega

/-- Arithmetic characterization of `is_extended_hours`. -/
theorem is_extended_hours_iff (dt : PyDateTime) :
    RenderOptimizer.is_extended_hours dt = true ↔
      dt.day % 7 < 5 ∧ hmsToTod 7 0 0 0 ≤ dt.tod ∧ dt.tod ≤ hmsToTod 20 0 0 0 := by
  simp only [RenderOptimizer.is_extended_hours, PyDateTime.weekday, PyDateTime.replaceTime,
    dtLe, hmsToTod]
  split
  · simp
    omega
  · simp
    omega

example : RenderOptimizer.is_market_hours ⟨0, hmsToTod 10 0 0 0, true⟩ = true := by decide
example : RenderOptimizer.is_market_hours ⟨5, hmsToTod 10 0 0 0, true⟩ = false := by decide
example : (RenderOptimizer.should_run_now ⟨0, hmsToTod 18 30 0 0, true⟩).check_interval = some 60 := by decide
example : (RenderOptimizer.should_run_now ⟨0, hmsToTod 21 0 0 0, true⟩).next_check
    = ⟨1, hmsToTod 7 0 0 0, true⟩ := by decide
example : (RenderOptimizer.should_run_now ⟨4, hmsToTod 20 30 0 0, true⟩).next_check
    = ⟨7, hmsToTod 7 0 0 0, true⟩ := by decide
example : (RenderOptimizer.should_run_now ⟨5, hmsToTod 12 0 0 0, true⟩).next_check
    = ⟨7, hmsToTod 7 0 0 0, true⟩ := by decide

/-- C1: on every weekday instant, local time in [09:30:00, 16:00:00] yields
should_run = true with a 10-minute poll interval, and local time in
[07:00:00, 09:30:00) or (16:00:00, 20:00:00] yields should_run = true with a
60-minute poll interval. -/
theorem C1_weekday_polling (dt : PyDateTime) (hw : dt.weekday < 5) :
    (hmsToTod 9 30 0 0 ≤ dt.tod ∧ dt.tod ≤ hmsToTod 16 0 0 0 →
      (RenderOptimizer.should_run_now dt).should_run = true ∧
      (RenderOptimizer.should_run_now dt).check_interval = some 10) ∧
    ((hmsToTod 7 0 0 0 ≤ dt.tod ∧ dt.tod < hmsToTod 9 30 0 0) ∨
        (hmsToTod 16 0 0 0 < dt.tod ∧ dt.tod ≤ hmsToTod 20 0 0 0) →
      (RenderOptimizer.should_run_now dt).should_run = true ∧
      (RenderOptimizer.should_run_now dt).check_interval = some 60) := by
  simp only [PyDateTime.weekday] at hw
  constructor
  · intro h
    have hm : RenderOptimizer.is_market_hours dt = true :=
      (is_market_hours_iff dt).2 ⟨hw, h⟩
    simp [RenderOptimizer.should_run_now, hm]
  · intro h
    have hm : RenderOptimizer.is_market_hours dt = false := by
      rw [Bool.eq_false_iff, Ne, is_market_hours_iff]
      simp only [hmsToTod] at h ⊢
      omega
    have he : RenderOptimizer.is_extended_hours dt = true := by
      rw [is_extended_hours_iff]
      refine ⟨hw, ?_⟩
      simp only [hmsToTod] at h ⊢
      omega
    simp [RenderOptimizer.should_run_now, hm, he]

/-- C1 witness: Monday 10:00 is Active with a 10-minute interval and Monday
18:30 is Extended with a 60-minute interval. -/
theorem C1_weekday_polling_witness :
    ((⟨0, hmsToTod 10 0 0 0, true⟩ : PyDateTime).weekday < 5 ∧
      (RenderOptimizer.should_run_now ⟨0, hmsToTod 10 0 0 0, true⟩).should_run = true ∧
      (RenderOptimizer.should_run_now ⟨0, hmsToTod 10 0 0 0, true⟩).check_interval = some 10) ∧
    ((RenderOptimizer.should_run_now ⟨0, hmsToTod 18 30 0 0, true⟩).should_run = true ∧
      (RenderOptimizer.should_run_now ⟨0, hmsToTod 18 30 0 0, true⟩).check_interval = some 60) :=
  ⟨⟨by decide,
    (C1_weekday_polling ⟨0, hmsToTod 10 0 0 0, true⟩ (by decide)).1 (by decide)⟩,
    (C1_weekday_polling ⟨0, hmsToTod 18 30 0 0, true⟩ (by decide)).2 (by decide)⟩

/-- C2: any weekend instant, and any instant whose local time lies outside
[07:00:00, 20:00:00], is classified with should_run = false, a 240-minute
sleep, and a computed next wake instant equal to `get_next_extended_open`. -/
theorem C2_dormant_sleep (dt : PyDateTime)
    (h : 5 ≤ dt.weekday ∨ dt.tod < hmsToTod 7 0 0 0 ∨ hmsToTod 20 0 0 0 < dt.tod) :
    (RenderOptimizer.should_run_now dt).should_run = false ∧
    (RenderOptimizer.should_run_now dt).sleep_minutes = some 240 ∧
    (RenderOptimizer.should_run_now dt).next_check
      = RenderOptimizer.get_next_extended_open dt := by
  simp only [PyDateTime.weekday] at h
  have hm : RenderOptimizer.is_market_hours dt = false := by
    rw [Bool.eq_false_iff, Ne, is_market_hours_iff]
    simp only [hmsToTod] at h ⊢
    omega
  have he : RenderOptimizer.is_extended_hours dt = false := by
    rw [Bool.eq_false_iff, Ne, is_extended_hours_iff]
    simp only [hmsToTod] at h ⊢
    omega
  simp [RenderOptimizer.should_run_now, hm, he]

/-- C2 witness: Sunday noon is Dormant with a 240-minute sleep and a
computed next wake instant. -/
theorem C2_dormant_sleep_witness :
    (5 ≤ (⟨6, hmsToTod 12 0 0 0, true⟩ : PyDateTime).weekday ∨
      (⟨6, hmsToTod 12 0 0 0, true⟩ : PyDateTime).tod < hmsToTod 7 0 0 0 ∨
      hmsToTod 20 0 0 0 < (⟨6, hmsToTod 12 0 0 0, true⟩ : PyDateTime).tod) ∧
    ((RenderOptimizer.should_run_now ⟨6, hmsToTod 12 0 0 0, true⟩).should_run = false ∧
      (RenderOptimizer.should_run_now ⟨6, hmsToTod 12 0 0 0, true⟩).sleep_minutes = some 240 ∧
      (RenderOptimizer.should_run_now ⟨6, hmsToTod 12 0 0 0, true⟩).next_check
        = RenderOptimizer.get_next_extended_open ⟨6, hmsToTod 12 0 0 0, true⟩) :=
  ⟨by decide, C2_dormant_sleep ⟨6, hmsToTod 12 0 0 0, true⟩ (by decide)⟩

/-- C3: the next-wake computation of the code agrees with the day-advance
algorithm exactly as the specification states it, on every instant. -/
theorem C3_next_wake_algorithm (dt : PyDateTime) :
    RenderOptimizer.get_next_extended_open dt = spec_next_wake dt := by
  have h20 : (20 ≤ dt.hour) ↔ (hmsToTod 20 0 0 0 ≤ dt.tod) := by
    simp only [PyDateTime.hour, usPerHour, hmsToTod]
    omega
  have h56 : (5 ≤ dt.weekday) ↔ (dt.weekday = 5 ∨ dt.weekday = 6) := by
    have hlt : dt.day % 7 < 7 := Nat.mod_lt _ (by omega)
    simp only [PyDateTime.weekday]
    omega
  simp only [RenderOptimizer.get_next_extended_open, spec_next_wake, h20, h56,
    PyDateTime.addDays, PyDateTime.replaceTime]


/-- C4: for every Dormant instant, the computed next wake instant falls on a
weekday, at exactly 07:00:00.000000 local, and is strictly after the
evaluating instant. -/
theorem C4_next_wake_invariant (dt : PyDateTime)
    (h : RenderOptimizer.dormantRegime dt = true) :
    (RenderOptimizer.get_next_extended_open dt).weekday < 5 ∧
    (RenderOptimizer.get_next_extended_open dt).tod = hmsToTod 7 0 0 0 ∧
    dtLt dt (RenderOptimizer.get_next_extended_open dt) = true := by
  simp only [RenderOptimizer.dormantRegime, Bool.and_eq_true, Bool.not_eq_true',
    Bool.eq_false_iff, Ne] at h
  obtain ⟨hm, he⟩ := h
  rw [is_market_hours_iff] at hm
  rw [is_extended_hours_iff] at he
  simp only [RenderOptimizer.get_next_extended_open, PyDateTime.addDays,
    PyDateTime.replaceTime, PyDateTime.weekday, PyDateTime.hour, usPerHour,
    hmsToTod, dtLt] at hm he ⊢
  split_ifs <;>
    simp only [PyDateTime.weekday, PyDateTime.hour, usPerHour, hmsToTod] at * <;>
    simp <;> omega

/-- C4 witness: Monday 22:00 is Dormant, and its computed next wake instant
is a weekday at exactly 07:00 local, strictly in the future. -/
theorem C4_next_wake_invariant_witness :
    RenderOptimizer.dormantRegime ⟨0, hmsToTod 22 0 0 0, true⟩ = true ∧
    ((RenderOptimizer.get_next_extended_open ⟨0, hmsToTod 22 0 0 0, true⟩).weekday < 5 ∧
      (RenderOptimizer.get_next_extended_open ⟨0, hmsToTod 22 0 0 0, true⟩).tod
        = hmsToTod 7 0 0 0 ∧
      dtLt ⟨0, hmsToTod 22 0 0 0, true⟩
        (RenderOptimizer.get_next_extended_open ⟨0, hmsToTod 22 0 0 0, true⟩) = true) :=
  ⟨by decide, C4_next_wake_invariant ⟨0, hmsToTod 22 0 0 0, true⟩ (by decide)⟩

/-- C5: when the task callback raises during an iteration in which the
classifier said to run, the loop catches and logs the error, sleeps exactly
300 seconds (5 minutes) instead of the computed check interval, leaves the
running flag untouched, and the loop proceeds to evaluate the next
iteration. -/
theorem C5_task_failure_backoff (s : OptimizerState) (now : PyDateTime) (e : String)
    (emailOk : Bool) (rest : List (PyDateTime × Except String (List Signal) × Bool))
    (hrun : s.is_running = true)
    (hshould : (RenderOptimizer.should_run_now now).should_run = true) :
    worker_loop s ((now, Except.error e, emailOk) :: rest)
      = worker_iteration s now (Except.error e) emailOk
        :: worker_loop (worker_iteration s now (Except.error e) emailOk).state rest ∧
    (worker_iteration s now (Except.error e) emailOk).sleeps = [300] ∧
    (worker_iteration s now (Except.error e) emailOk).errorLogged = true ∧
    (worker_iteration s now (Except.error e) emailOk).state.is_running = true := by
  refine ⟨by simp [worker_loop, hrun], ?_⟩
  simp only [worker_iteration, RenderOptimizer.log_status, hshould]
  simp [hrun]

/-- C5 witness: with a running optimizer on Monday 10:00 and a raising task
callback, the loop records one failed iteration that sleeps 300 seconds and
keeps running. -/
theorem C5_task_failure_backoff_witness :
    sampleRunning.is_running = true ∧
    (RenderOptimizer.should_run_now ⟨0, hmsToTod 10 0 0 0, true⟩).should_run = true ∧
    (worker_loop sampleRunning [(⟨0, hmsToTod 10 0 0 0, true⟩, Except.error "boom", false)]
        = worker_iteration sampleRunning ⟨0, hmsToTod 10 0 0 0, true⟩
            (Except.error "boom") false
          :: worker_loop (worker_iteration sampleRunning ⟨0, hmsToTod 10 0 0 0, true⟩
              (Except.error "boom") false).state [] ∧
      (worker_iteration sampleRunning ⟨0, hmsToTod 10 0 0 0, true⟩
          (Except.error "boom") false).sleeps = [300] ∧
      (worker_iteration sampleRunning ⟨0, hmsToTod 10 0 0 0, true⟩
          (Except.error "boom") false).errorLogged = true ∧
      (worker_iteration sampleRunning ⟨0, hmsToTod 10 0 0 0, true⟩
          (Except.error "boom") false).state.is_running = true) :=
  ⟨by decide, by decide,
    C5_task_failure_backoff sampleRunning ⟨0, hmsToTod 10 0 0 0, true⟩ "boom" false []
      (by decide) (by decide)⟩

/-- C10: the decision record carries the check-interval key exactly when
should_run is true and the sleep-minutes key exactly when it is false, and
consequently a worker iteration whose task callback returns normally never
reaches the error handler: no dictionary lookup in the loop can fail. -/
theorem C10_decision_keys (now : PyDateTime) (s : OptimizerState)
    (buys : List Signal) (emailOk : Bool) :
    ((RenderOptimizer.should_run_now now).should_run = true
      ↔ ((RenderOptimizer.should_run_now now).check_interval).isSome = true) ∧
    ((RenderOptimizer.should_run_now now).should_run = false
      ↔ ((RenderOptimizer.should_run_now now).sleep_minutes).isSome = true) ∧
    (worker_iteration s now (Except.ok buys) emailOk).errorLogged = false := by
  simp only [worker_iteration, RenderOptimizer.log_status, RenderOptimizer.should_run_now]
  split_ifs <;> simp_all

/-- C6 counterexample: at Monday 16:00:00.000000 the code classifies the
instant as Active with the 10-minute interval: its boundary comparisons are
inclusive, so the Active window contains its right endpoint and is not the
half-open time-of-day interval [09:30, 16:00). -/
theorem C6_counterexample :
    RenderOptimizer.activeRegime ⟨0, hmsToTod 16 0 0 0, true⟩ = true ∧
    specActiveHalfOpen ⟨0, hmsToTod 16 0 0 0, true⟩ = false ∧
    (RenderOptimizer.should_run_now ⟨0, hmsToTod 16 0 0 0, true⟩).check_interval
      = some 10 := by
  decide

/-- C6 amended: for every instant exactly one of the Active, Extended and
Dormant regimes holds; on weekdays the Active regime is the closed
time-of-day interval [09:30, 16:00] and the Extended regime is
[07:00, 09:30) together with (16:00, 20:00]; on weekends Active and
Extended are false and every instant is Dormant. -/
theorem C6_regimes_partition (dt : PyDateTime) :
    (RenderOptimizer.activeRegime dt).toNat + (RenderOptimizer.extendedRegime dt).toNat
        + (RenderOptimizer.dormantRegime dt).toNat = 1 ∧
    (RenderOptimizer.activeRegime dt = true ↔
      dt.weekday < 5 ∧ hmsToTod 9 30 0 0 ≤ dt.tod ∧ dt.tod ≤ hmsToTod 16 0 0 0) ∧
    (RenderOptimizer.extendedRegime dt = true ↔
      dt.weekday < 5 ∧ ((hmsToTod 7 0 0 0 ≤ dt.tod ∧ dt.tod < hmsToTod 9 30 0 0) ∨
        (hmsToTod 16 0 0 0 < dt.tod ∧ dt.tod ≤ hmsToTod 20 0 0 0))) ∧
    (5 ≤ dt.weekday → RenderOptimizer.activeRegime dt = false ∧
      RenderOptimizer.extendedRegime dt = false ∧
      RenderOptimizer.dormantRegime dt = true) := by
  have hm := is_market_hours_iff dt
  have he := is_extended_hours_iff dt
  simp only [PyDateTime.weekday, hmsToTod] at hm he ⊢
  simp only [RenderOptimizer.activeRegime, RenderOptimizer.extendedRegime,
    RenderOptimizer.dormantRegime]
  cases hM : RenderOptimizer.is_market_hours dt <;>
    cases hE : RenderOptimizer.is_extended_hours dt <;>
    simp only [hM, hE] at hm he ⊢ <;>
    simp at hm he ⊢ <;>
    omega

/-- C6 witness: Saturday noon is a weekend instant on which Active and
Extended are false, Dormant holds, and the regime count is one. -/
theorem C6_regimes_partition_witness :
    ((RenderOptimizer.activeRegime ⟨5, hmsToTod 12 0 0 0, true⟩).toNat
        + (RenderOptimizer.extendedRegime ⟨5, hmsToTod 12 0 0 0, true⟩).toNat
        + (RenderOptimizer.dormantRegime ⟨5, hmsToTod 12 0 0 0, true⟩).toNat = 1) ∧
    5 ≤ (⟨5, hmsToTod 12 0 0 0, true⟩ : PyDateTime).weekday ∧
    (RenderOptimizer.activeRegime ⟨5, hmsToTod 12 0 0 0, true⟩ = false ∧
      RenderOptimizer.extendedRegime ⟨5, hmsToTod 12 0 0 0, true⟩ = false ∧
      RenderOptimizer.dormantRegime ⟨5, hmsToTod 12 0 0 0, true⟩ = true) :=
  ⟨(C6_regimes_partition ⟨5, hmsToTod 12 0 0 0, true⟩).1, by decide,
    (C6_regimes_partition ⟨5, hmsToTod 12 0 0 0, true⟩).2.2.2 (by decide)⟩

/-- C7 counterexample: a naive Monday 10:00 timestamp (no tzinfo, awareness
flag false) is classified normally: the classifier returns the Active
decision with a 10-minute interval; no InvalidInput failure occurs and no
validation or error path exists in the classifier code. -/
theorem C7_counterexample :
    (RenderOptimizer.should_run_now ⟨0, hmsToTod 10 0 0 0, false⟩).should_run = true ∧
    (RenderOptimizer.should_run_now ⟨0, hmsToTod 10 0 0 0, false⟩).check_interval
      = some 10 := by
  decide

/-- C7 amended: the classifier performs no time-zone validation: it is a
total function whose scheduling observables ignore the awareness flag, so a
naive timestamp is classified silently, exactly like the aware timestamp
with the same wall-clock fields. -/
theorem C7_no_awareness_validation (day tod : Nat) (a b : Bool) :
    decisionObservables (RenderOptimizer.should_run_now ⟨day, tod, a⟩)
      = decisionObservables (RenderOptimizer.should_run_now ⟨day, tod, b⟩) := by
  have hm : RenderOptimizer.is_market_hours ⟨day, tod, a⟩
      = RenderOptimizer.is_market_hours ⟨day, tod, b⟩ := rfl
  have he : RenderOptimizer.is_extended_hours ⟨day, tod, a⟩
      = RenderOptimizer.is_extended_hours ⟨day, tod, b⟩ := rfl
  simp only [RenderOptimizer.should_run_now, decisionObservables]
  rw [hm, he]
  split_ifs <;> rfl

/-- C8 counterexample: with a running optimizer at the Dormant instant
Sunday 03:00, the iteration issues one single time.sleep call of 14400
seconds (240 minutes): the long wait is a raw sleep, not slices of at most
60 seconds re-checking the stop flag. -/
theorem C8_counterexample :
    (worker_iteration sampleRunning ⟨6, hmsToTod 3 0 0 0, true⟩
        (Except.ok []) false).sleeps = [14400] ∧
    ¬ (∀ d ∈ (worker_iteration sampleRunning ⟨6, hmsToTod 3 0 0 0, true⟩
        (Except.ok []) false).sleeps, d ≤ 60) := by
  decide

/-- C8 amended: the loop observes the stop flag at the top of each iteration
(a cleared flag means no iteration runs at all), but within an iteration the
wait is exactly one raw sleep call for the full computed duration, with no
slicing and no stop checks during the sleep. -/
theorem C8_top_of_loop_stop_only (s : OptimizerState)
    (inputs : List (PyDateTime × Except String (List Signal) × Bool))
    (now : PyDateTime) (task : Except String (List Signal)) (emailOk : Bool)
    (hstop : s.is_running = false) :
    worker_loop s inputs = [] ∧
    (worker_iteration s now task emailOk).sleeps.length = 1 := by
  constructor
  · cases inputs with
    | nil => rfl
    | cons hd tl =>
      obtain ⟨n, t, em⟩ := hd
      simp [worker_loop, hstop]
  · simp only [worker_iteration, RenderOptimizer.log_status,
      RenderOptimizer.should_run_now]
    split_ifs <;> rcases task with e | buys <;> simp [apply_ite]

/-- C8 witness: with the stop flag cleared the loop performs no iteration,
and an iteration at Monday 10:00 makes exactly one sleep call. -/
theorem C8_top_of_loop_stop_only_witness :
    sampleStopped.is_running = false ∧
    (worker_loop sampleStopped [(⟨0, hmsToTod 10 0 0 0, true⟩, Except.ok [], true)] = [] ∧
      (worker_iteration sampleStopped ⟨0, hmsToTod 10 0 0 0, true⟩
          (Except.ok []) true).sleeps.length = 1) :=
  ⟨by decide,
    C8_top_of_loop_stop_only sampleStopped
      [(⟨0, hmsToTod 10 0 0 0, true⟩, Except.ok [], true)]
      ⟨0, hmsToTod 10 0 0 0, true⟩ (Except.ok []) true (by decide)⟩

/-- C9: evaluating the classifier is pure: as a state transformer it leaves
the optimizer state unchanged, the decision it returns does not depend on
that state, and a second evaluation at the same instant (from the state the
first evaluation left behind) returns the identical decision. -/
theorem C9_classifier_pure (s t : OptimizerState) (now : PyDateTime) :
    (RenderOptimizer.should_run_now_st s now).2 = s ∧
    (RenderOptimizer.should_run_now_st s now).1
      = (RenderOptimizer.should_run_now_st t now).1 ∧
    (RenderOptimizer.should_run_now_st
        (RenderOptimizer.should_run_now_st s now).2 now).1
      = (RenderOptimizer.should_run_now_st s now).1 :=
  ⟨rfl, rfl, rfl⟩
